import Mathlib

/-!
Verification of the video_taker repository (capturador.py, config.py) against
its natural-language specification.

The Python modules are shallowly embedded: pure functions become Lean
functions; module-global mutable state (`FORMATO_VIDEO`) is threaded
explicitly; fallible operations (Python exceptions such as `KeyError`)
return `Except`/`Option`.  The external environment of a capture session —
the network (`requests`), the JPEG decoder (`cv2.imdecode`), the wall clock
(`datetime.now`, iteration budget of the duration-bounded loop) — is passed
in as explicit parameters, since it is not code of this repository.
Bytes are modelled as `Nat` (values < 256 in all concrete instances).
-/

namespace VideoTaker

/-! ### config.py -/

/-- config.py: `CODECS = {"mp4": "mp4v", "avi": "I420"}`, insertion order kept. -/
def CODECS : List (String × String) := [("mp4", "mp4v"), ("avi", "I420")]

/-- config.py: `FORMATO_VIDEO = "avi"`, the module-level default value of the
process-wide video-format setting. -/
def FORMATO_VIDEO : String := "avi"

/-- Camera descriptor, config.py's `CAMARAS` entries.  Optional Python keys
(`duracion`, `fps`, `habilitada`) become `Option` fields; `camara.get(k, d)`
becomes `Option.getD`. -/
structure Camara where
  id : String
  nombre : String
  url : String
  duracion : Option Nat := none
  fps : Option Nat := none
  habilitada : Option Bool := none
deriving Repr, DecidableEq

/-- config.py `obtener_camaras_habilitadas`:
`[camara for camara in CAMARAS if camara.get("habilitada", True)]`. -/
def obtener_camaras_habilitadas (camaras : List Camara) : List Camara :=
  camaras.filter (fun camara => camara.habilitada.getD true)

/-- config.py `cambiar_formato_video`, acting on an explicit current value of
the global `FORMATO_VIDEO`; returns the Python return value together with the
new value of the global. -/
def cambiar_formato_video (formato : String) (formato_video : String) :
    Bool × String :=
  let formatos_validos := CODECS.map Prod.fst
  if formatos_validos.contains formato.toLower then
    (true, formato.toLower)
  else
    (false, formato_video)

/-- config.py `obtener_extension`: returns the current `FORMATO_VIDEO`. -/
def obtener_extension (formato_video : String) : String :=
  formato_video

/-- config.py `obtener_codec`: `CODECS[FORMATO_VIDEO]`; the Python dict access
raises `KeyError` on a missing key, hence `Option`. -/
def obtener_codec (formato_video : String) : Option String :=
  (CODECS.find? (fun p => p.fst == formato_video)).map Prod.snd

/-! ### Python `str.format` templates

`generar_nombre_archivo` applies Python's `str.format` to a name template.
A template is modelled as its parsed token sequence: literal runs and
replacement fields.  `str.format` substitutes each field from the keyword
arguments and raises `KeyError(name)` on a field with no matching argument. -/

/-- One token of a parsed `str.format` template: a literal run or a
replacement field naming a keyword argument. -/
inductive Tok where
  | lit : String → Tok
  | campo : String → Tok
deriving Repr, DecidableEq

/-- Python `template.format(**vals)`: substitute fields left to right,
raising `KeyError` (here `Except.error` carrying the field name) at a field
whose name has no supplied value. -/
def formatTemplate (vals : List (String × String)) : List Tok → Except String String
  | [] => .ok ""
  | Tok.lit s :: rest => (formatTemplate vals rest).map (fun r => s ++ r)
  | Tok.campo k :: rest =>
    match vals.find? (fun p => p.fst == k) with
    | some pv => (formatTemplate vals rest).map (fun r => pv.snd ++ r)
    | none => .error k

/-- config.py line 44: `FORMATO_NOMBRE = "camara_{id}_{timestamp}.{ext}"`,
parsed into template tokens. -/
def FORMATO_NOMBRE : List Tok :=
  [Tok.lit "camara_", Tok.campo "id", Tok.lit "_", Tok.campo "timestamp",
   Tok.lit ".", Tok.campo "ext"]

/-- capturador.py `generar_nombre_archivo`: formats the template with
keyword arguments `id` and `timestamp` only, then joins with the directory
(`os.path.join`).  The timestamp (`datetime.now().strftime("%Y%m%d_%H%M%S")`)
is an environment input, passed explicitly.  The `KeyError` that
`formato.format(...)` raises on any other field propagates. -/
def generar_nombre_archivo (formato : List Tok) (id_camara : String)
    (directorio : String) (ts : String) : Except String String :=
  (formatTemplate [("id", id_camara), ("timestamp", ts)] formato).map
    (fun nombre_archivo => directorio ++ "/" ++ nombre_archivo)

/-! ### capturador.py: byte-stream frame extraction -/

/-- Python `bytes.find(pat)` (first index of the substring, `-1` ≡ `none`). -/
def findSub (pat : List Nat) : List Nat → Option Nat
  | [] => if pat.isPrefixOf ([] : List Nat) then some 0 else none
  | x :: rest =>
    if pat.isPrefixOf (x :: rest) then some 0
    else (findSub pat rest).map (fun i => i + 1)

/-- JPEG start marker `b'\xff\xd8'`. -/
def inicioJPEG : List Nat := [255, 216]

/-- JPEG end marker `b'\xff\xd9'`. -/
def finJPEG : List Nat := [255, 217]

/-- capturador.py lines 97-103: one marker-search step on the buffer.
`a = bytes_data.find(b'\xff\xd8'); b = bytes_data.find(b'\xff\xd9')`;
when both are found the candidate payload `bytes_data[a:b+2]` is cut out
and the buffer advances to `bytes_data[b+2:]` (Python slices with
`a >= b+2` yield the empty bytes, matched here by `Nat` truncation). -/
def extraer_frame (bytes_data : List Nat) : Option (List Nat) × List Nat :=
  match findSub inicioJPEG bytes_data, findSub finJPEG bytes_data with
  | some a, some b =>
    (some ((bytes_data.drop a).take (b + 2 - a)), bytes_data.drop (b + 2))
  | _, _ => (none, bytes_data)

/-! ### capturador.py: the capture loop of `capturar_video` -/

/-- The mutable loop state of `capturar_video`: the byte buffer, the lazily
bound frame geometry (`frame_size`, set exactly when the `VideoWriter` is
constructed), and the frame counter.  `payloads` is a ghost trace recording
every candidate payload handed to `cv2.imdecode`. -/
structure EstadoCaptura where
  bytes_data : List Nat
  frame_size : Option (Nat × Nat)
  frames_captured : Nat
  payloads : List (List Nat)
deriving Repr, DecidableEq

/-- capturador.py lines 94-122: process one non-empty chunk read from the
stream.  `decode` is the environment's `cv2.imdecode` (returning the decoded
frame's `(width, height)` or `none`).  On a successful decode the writer is
opened at the first frame's geometry (`frame_size` bound once) and the frame
counter increments; a failed decode is dropped silently. -/
def procesar_chunk (decode : List Nat → Option (Nat × Nat))
    (st : EstadoCaptura) (chunk : List Nat) : EstadoCaptura :=
  match extraer_frame (st.bytes_data ++ chunk) with
  | (some jpg_data, bd2) =>
    match decode jpg_data with
    | some tam =>
      match st.frame_size with
      | none =>
        { bytes_data := bd2, frame_size := some tam,
          frames_captured := st.frames_captured + 1,
          payloads := st.payloads ++ [jpg_data] }
      | some tam0 =>
        { bytes_data := bd2, frame_size := some tam0,
          frames_captured := st.frames_captured + 1,
          payloads := st.payloads ++ [jpg_data] }
    | none =>
      { bytes_data := bd2, frame_size := st.frame_size,
        frames_captured := st.frames_captured, payloads := st.payloads ++ [jpg_data] }
  | (none, bd2) =>
    { bytes_data := bd2, frame_size := st.frame_size,
      frames_captured := st.frames_captured, payloads := st.payloads }

/-- One outcome of `response.raw.read(1024)` on the open stream: either a
returned chunk (the empty chunk signalling stream end), or a raised read
error — mid-stream urllib3 exceptions such as a read timeout or a dropped
connection, which are not `requests.exceptions.RequestException` and
therefore land in `capturar_video`'s catch-all handler (lines 139-142). -/
inductive Lectura where
  | datos : List Nat → Lectura
  | fallo : String → Lectura
deriving Repr, DecidableEq

/-- capturador.py lines 88-122: the duration-bounded read loop.
`fuel` is the number of iterations the wall-clock test
`time.time() - start_time < duracion` admits (the clock is environment);
`lecturas` is the sequence of outcomes `response.raw.read(1024)` yields, an
exhausted list standing for the empty read that breaks the loop.
Returns the loop state at exit together with the message of the exception
that aborted the loop, if one was raised. -/
def bucle_captura (decode : List Nat → Option (Nat × Nat)) :
    Nat → List Lectura → EstadoCaptura → EstadoCaptura × Option String
  | 0, _, st => (st, none)
  | _ + 1, [], st => (st, none)
  | _ + 1, Lectura.fallo e :: _, st => (st, some e)
  | fuel + 1, Lectura.datos chunk :: rest, st =>
    if chunk = [] then (st, none)
    else bucle_captura decode fuel rest (procesar_chunk decode st chunk)

/-! ### capturador.py: `capturar_video` -/

/-- Outcome of `requests.Session().get(url, stream=True, timeout=10)`:
either a raised `requests.exceptions.RequestException`, or a response with a
status code and a stream of chunk reads. -/
inductive HttpRespuesta where
  | connError : String → HttpRespuesta
  | resp : Nat → List Lectura → HttpRespuesta
deriving Repr

/-- The observable outcome of one run of `capturar_video`: the returned
triple `(éxito, nombre_archivo, mensaje)` plus ghost observables of the run
(frame counter, whether `cv2.VideoWriter` was constructed and with which
fourcc/fps/geometry, and the trace of decoded-candidate payloads). -/
structure CapturaTraza where
  exito : Bool
  archivo : String
  mensaje : String
  frames_captured : Nat
  writer_abierto : Bool
  fourcc_usado : Option String
  fps_usado : Option Nat
  frame_size : Option (Nat × Nat)
  payloads : List (List Nat)
  excepcion : Option String
deriving Repr, DecidableEq

/-- capturador.py lines 124-133 ("Liberar recursos"): the session result
after the capture loop.  `out is not None` is equivalent to
`final.frame_size ≠ none` (both are assigned together at lines 110-112, where
the `VideoWriter` is constructed with the literal fourcc `'mp4v'` of line 77
and the camera's fps); the trace records that writer configuration. -/
def cerrar_sesion (output_filename nombre_camara : String) (fps : Nat)
    (final : EstadoCaptura) : CapturaTraza :=
  match final.frame_size with
  | some tam =>
    { exito := true, archivo := output_filename,
      mensaje := "Captura completada: " ++
        toString final.frames_captured ++ " frames",
      frames_captured := final.frames_captured, writer_abierto := true,
      fourcc_usado := some "mp4v", fps_usado := some fps,
      frame_size := some tam, payloads := final.payloads, excepcion := none }
  | none =>
    { exito := false, archivo := output_filename,
      mensaje := "No se pudo iniciar la captura de video para " ++
        nombre_camara ++ ". Verifique la URL.",
      frames_captured := final.frames_captured, writer_abierto := false,
      fourcc_usado := none, fps_usado := none, frame_size := none,
      payloads := final.payloads, excepcion := none }

/-- capturador.py `capturar_video`.  `red` is the environment's network
(response of the GET on a URL), `ts` the formatted `datetime.now()` at
session start, `fuel` the iteration budget that the duration window
`camara.get("duracion", 30)` admits (the wall clock is environment).
`camara.get("fps", 20)` is passed to the writer at open time.
The filename is generated BEFORE the `try` block (line 59), so a `KeyError`
from the template escapes the function (`Except.error`); everything inside
the `try` is covered by the two handlers: a `RequestException` from the GET
is answered by lines 135-138, and any exception raised mid-loop by a stream
read (`Lectura.fallo`) is answered by the catch-all of lines 139-142, which
returns failure regardless of whether the writer was already opened.
The trace's `excepcion` field records the caught exception, if any. -/
def capturar_video (decode : List Nat → Option (Nat × Nat))
    (red : String → HttpRespuesta) (camara : Camara) (directorio : String)
    (formato_nombre : List Tok) (ts : String) (fuel : Nat) :
    Except String CapturaTraza :=
  match generar_nombre_archivo formato_nombre camara.id directorio ts with
  | .error k => .error k
  | .ok output_filename =>
    .ok <|
      match red camara.url with
      | .connError e =>
        { exito := false, archivo := output_filename,
          mensaje := "Error de conexión para " ++ camara.nombre ++ ": " ++ e,
          frames_captured := 0, writer_abierto := false, fourcc_usado := none,
          fps_usado := none, frame_size := none, payloads := [],
          excepcion := some e }
      | .resp status chunks =>
        if status ≠ 200 then
          { exito := false, archivo := output_filename,
            mensaje := "Error al conectar a la URL de " ++ camara.nombre ++
              ": Código " ++ toString status,
            frames_captured := 0, writer_abierto := false, fourcc_usado := none,
            fps_usado := none, frame_size := none, payloads := [],
            excepcion := none }
        else
          match bucle_captura decode fuel chunks
              { bytes_data := [], frame_size := none, frames_captured := 0,
                payloads := [] } with
          | (final, some e) =>
            { exito := false, archivo := output_filename,
              mensaje := "Error durante la captura de " ++ camara.nombre ++
                ": " ++ e,
              frames_captured := final.frames_captured,
              writer_abierto := final.frame_size.isSome,
              fourcc_usado :=
                if final.frame_size.isSome then some "mp4v" else none,
              fps_usado :=
                if final.frame_size.isSome then some (camara.fps.getD 20)
                else none,
              frame_size := final.frame_size, payloads := final.payloads,
              excepcion := some e }
          | (final, none) =>
            cerrar_sesion output_filename camara.nombre (camara.fps.getD 20)
              final

/-! ### capturador.py: worker and orchestrator -/

/-- A Python value stored in a result dict. -/
inductive Valor where
  | s : String → Valor
  | b : Bool → Valor
deriving Repr, DecidableEq

/-- A capture-result record as `worker_captura` builds it: a dict, modelled
as its ordered key/value pairs. -/
abbrev Resultado : Type := List (String × Valor)

/-- The keys of a result record. -/
def claves (r : Resultado) : List String := r.map Prod.fst

/-- capturador.py `worker_captura`, restricted to one dequeued camera: calls
`capturar_video`; on a normal return appends the five-key result dict of
lines 150-156; an exception escaping `capturar_video` is caught by the
worker's `except` (line 157), logged, and produces NO result entry. -/
def worker_un_item (decode : List Nat → Option (Nat × Nat))
    (red : String → HttpRespuesta) (directorio : String)
    (formato_nombre : List Tok) (ts : String) (fuel : Nat)
    (camara : Camara) : Option Resultado :=
  match capturar_video decode red camara directorio formato_nombre ts fuel with
  | .error _ => none
  | .ok r =>
    some [("id", Valor.s camara.id), ("nombre", Valor.s camara.nombre),
          ("exito", Valor.b r.exito), ("archivo", Valor.s r.archivo),
          ("mensaje", Valor.s r.mensaje)]

/-- capturador.py `capturar_todas_las_camaras`.  The thread pool is modelled
up to result order: the queue hands each camera to exactly one worker, each
worker appends at most one record per camera, and the orchestrator joins on
the queue before returning, so the returned collection is the per-camera
worker outputs (the spec guarantees no ordering, so queue order is used as
the canonical representative).  `max_hilos` bounds the worker count
(`num_hilos = min(max_hilos, len(camaras))`), which affects scheduling only,
never which records are produced. -/
def capturar_todas_las_camaras (decode : List Nat → Option (Nat × Nat))
    (red : String → HttpRespuesta) (camaras : List Camara)
    (directorio : String) (formato_nombre : List Tok) (max_hilos : Nat)
    (ts : String) (fuel : Nat) : List Resultado :=
  if camaras.isEmpty then []
  else
    camaras.filterMap (worker_un_item decode red directorio formato_nombre ts fuel)

/-! ### Concrete environment fixtures for instance theorems -/

/-- A concrete stand-in for `cv2.imdecode`: decodes every nonempty candidate
payload at geometry 2×2 and (like `cv2.imdecode`) fails on the empty bytes. -/
def decode0 : List Nat → Option (Nat × Nat) :=
  fun p => if p.isEmpty then none else some (2, 2)

/-- The camera of config.py's `CAMARAS` (URL abstracted). -/
def cam1 : Camara :=
  { id := "cam1", nombre := "Cámara Principal", url := "http://camara/video_feed",
    duracion := some 30, fps := some 30, habilitada := some true }

/-- A name template whose fields are all supplied by `generar_nombre_archivo`
(`"camara_{id}_{timestamp}.avi"`), used to drive sessions past the filename
generation step in concrete runs. -/
def plantillaOk : List Tok :=
  [Tok.lit "camara_", Tok.campo "id", Tok.lit "_", Tok.campo "timestamp",
   Tok.lit ".avi"]

/-- The record the worker produces for `cam1` when the stream answers 404
under the fixtures above. -/
def resultado404 : Resultado :=
  [("id", Valor.s "cam1"), ("nombre", Valor.s "Cámara Principal"),
   ("exito", Valor.b false),
   ("archivo", Valor.s "videos_capturados/camara_cam1_20260101_000000.avi"),
   ("mensaje", Valor.s "Error al conectar a la URL de Cámara Principal: Código 404")]

/-- Session trace of `cam1` under `decode0` when the stream sends
`FF D9 FF D8` (an end marker before any start marker, never a valid pair):
the only candidate payload is empty and fails decode. -/
def resultadoSinFrames : CapturaTraza :=
  { exito := false,
    archivo := "videos_capturados/camara_cam1_20260101_000000.avi",
    mensaje := "No se pudo iniciar la captura de video para Cámara Principal. Verifique la URL.",
    frames_captured := 0, writer_abierto := false, fourcc_usado := none,
    fps_usado := none, frame_size := none, payloads := [[]],
    excepcion := none }

/-- Session trace of `cam1` under `decode0` when the stream sends one
complete JPEG frame `FF D8 01 FF D9`. -/
def resultadoUnFrame : CapturaTraza :=
  { exito := true,
    archivo := "videos_capturados/camara_cam1_20260101_000000.avi",
    mensaje := "Captura completada: 1 frames",
    frames_captured := 1, writer_abierto := true, fourcc_usado := some "mp4v",
    fps_usado := some 30, frame_size := some (2, 2),
    payloads := [[255, 216, 1, 255, 217]], excepcion := none }

/-- Session trace of `cam1` under `decode0` when the stream delivers one
complete frame `FF D8 01 FF D9` — opening the writer — and then the next
`raw.read` raises a mid-stream read error: the catch-all handler of
capturador.py lines 139-142 returns failure although the writer is open and
one frame was written. -/
def resultadoFalloLectura : CapturaTraza :=
  { exito := false,
    archivo := "videos_capturados/camara_cam1_20260101_000000.avi",
    mensaje := "Error durante la captura de Cámara Principal: Read timed out.",
    frames_captured := 1, writer_abierto := true, fourcc_usado := some "mp4v",
    fps_usado := some 30, frame_size := some (2, 2),
    payloads := [[255, 216, 1, 255, 217]],
    excepcion := some "Read timed out." }

/-! ### Invariants of the capture loop -/

/-- Writer/counter coupling of the capture loop: the writer is unopened
exactly while the frame counter is zero (the counter first increments in the
same iteration that constructs the `VideoWriter`). -/
def invJ (st : EstadoCaptura) : Prop :=
  (st.frame_size = none ∧ st.frames_captured = 0) ∨
  (st.frame_size ≠ none ∧ 1 ≤ st.frames_captured)

/-- Writer provenance: an open writer owes its opening to some candidate
payload that `decode` accepted. -/
def invQ (decode : List Nat → Option (Nat × Nat)) (st : EstadoCaptura) : Prop :=
  st.frame_size ≠ none → ∃ p ∈ st.payloads, decode p ≠ none

end VideoTaker

namespace VideoTaker

/-! ## Helper lemmas -/

theorem bucle_captura_cero (decode : List Nat → Option (Nat × Nat))
    (lecturas : List Lectura) (st : EstadoCaptura) :
    bucle_captura decode 0 lecturas st = (st, none) := rfl

theorem bucle_captura_vacio (decode : List Nat → Option (Nat × Nat))
    (fuel : Nat) (st : EstadoCaptura) :
    bucle_captura decode (fuel + 1) [] st = (st, none) := rfl

theorem bucle_captura_fallo (decode : List Nat → Option (Nat × Nat))
    (fuel : Nat) (e : String) (rest : List Lectura) (st : EstadoCaptura) :
    bucle_captura decode (fuel + 1) (Lectura.fallo e :: rest) st =
      (st, some e) := rfl

theorem bucle_captura_paso (decode : List Nat → Option (Nat × Nat))
    (fuel : Nat) (c : List Nat) (rest : List Lectura) (st : EstadoCaptura) :
    bucle_captura decode (fuel + 1) (Lectura.datos c :: rest) st =
      if c = [] then (st, none)
      else bucle_captura decode fuel rest (procesar_chunk decode st c) := rfl

theorem procesar_chunk_invJ (decode : List Nat → Option (Nat × Nat))
    (st : EstadoCaptura) (chunk : List Nat) (h : invJ st) :
    invJ (procesar_chunk decode st chunk) := by
  unfold procesar_chunk
  rcases he : extraer_frame (st.bytes_data ++ chunk) with ⟨o, bd2⟩
  cases o with
  | none => exact h
  | some jpg =>
    dsimp only
    rcases hd : decode jpg with _ | tam
    · exact h
    · rcases hs : st.frame_size with _ | tam0
      · exact Or.inr ⟨fun hc => Option.noConfusion hc, Nat.le_add_left 1 _⟩
      · exact Or.inr ⟨fun hc => Option.noConfusion hc, Nat.le_add_left 1 _⟩

theorem procesar_chunk_invQ (decode : List Nat → Option (Nat × Nat))
    (st : EstadoCaptura) (chunk : List Nat) (h : invQ decode st) :
    invQ decode (procesar_chunk decode st chunk) := by
  unfold procesar_chunk
  rcases he : extraer_frame (st.bytes_data ++ chunk) with ⟨o, bd2⟩
  cases o with
  | none => exact h
  | some jpg =>
    dsimp only
    rcases hd : decode jpg with _ | tam
    · intro hne
      obtain ⟨p, hp, hpd⟩ := h hne
      exact ⟨p, List.mem_append_left _ hp, hpd⟩
    · rcases hs : st.frame_size with _ | tam0
      · intro _
        refine ⟨jpg, List.mem_append_right _ (List.mem_singleton.mpr rfl), ?_⟩
        rw [hd]
        exact fun hc => Option.noConfusion hc
      · intro _
        refine ⟨jpg, List.mem_append_right _ (List.mem_singleton.mpr rfl), ?_⟩
        rw [hd]
        exact fun hc => Option.noConfusion hc

theorem bucle_captura_invJ (decode : List Nat → Option (Nat × Nat)) :
    ∀ (fuel : Nat) (lecturas : List Lectura) (st : EstadoCaptura),
      invJ st → invJ (bucle_captura decode fuel lecturas st).1 := by
  intro fuel
  induction fuel with
  | zero => intro lecturas st h; exact h
  | succ n ih =>
    intro lecturas st h
    cases lecturas with
    | nil => exact h
    | cons l rest =>
      cases l with
      | fallo e => exact h
      | datos c =>
        rw [bucle_captura_paso]
        by_cases hc : c = []
        · rw [if_pos hc]; exact h
        · rw [if_neg hc]; exact ih rest _ (procesar_chunk_invJ decode st c h)

theorem bucle_captura_invQ (decode : List Nat → Option (Nat × Nat)) :
    ∀ (fuel : Nat) (lecturas : List Lectura) (st : EstadoCaptura),
      invQ decode st → invQ decode (bucle_captura decode fuel lecturas st).1 := by
  intro fuel
  induction fuel with
  | zero => intro lecturas st h; exact h
  | succ n ih =>
    intro lecturas st h
    cases lecturas with
    | nil => exact h
    | cons l rest =>
      cases l with
      | fallo e => exact h
      | datos c =>
        rw [bucle_captura_paso]
        by_cases hc : c = []
        · rw [if_pos hc]; exact h
        · rw [if_neg hc]; exact ih rest _ (procesar_chunk_invQ decode st c h)

/-- The initial loop state satisfies both invariants of the final one. -/
theorem invJ_inicial :
    invJ { bytes_data := [], frame_size := none, frames_captured := 0,
           payloads := [] } :=
  Or.inl ⟨rfl, rfl⟩

theorem invQ_inicial (decode : List Nat → Option (Nat × Nat)) :
    invQ decode { bytes_data := [], frame_size := none, frames_captured := 0,
                  payloads := [] } :=
  fun hc => absurd rfl hc

/-- `findSub pat bd = some i` means `pat` occurs at offset `i`. -/
theorem findSub_isPrefixOf (pat : List Nat) :
    ∀ (bd : List Nat) (i : Nat), findSub pat bd = some i →
      pat.isPrefixOf (bd.drop i) = true := by
  intro bd
  induction bd with
  | nil =>
    intro i h
    unfold findSub at h
    split at h
    · next hpre => injection h with h'; rw [← h']; exact hpre
    · exact Option.noConfusion h
  | cons x rest ih =>
    intro i h
    unfold findSub at h
    split at h
    · next hpre => injection h with h'; rw [← h']; exact hpre
    · rcases hmap : findSub pat rest with _ | j
      · rw [hmap] at h; exact Option.noConfusion h
      · rw [hmap] at h
        simp only [Option.map] at h
        injection h with h'
        rw [← h']
        exact ih j hmap

/-- `[x, y].isPrefixOf l` decomposes `l`. -/
theorem isPrefixOf_par {x y : Nat} :
    ∀ {l : List Nat}, [x, y].isPrefixOf l = true → ∃ t, l = x :: y :: t := by
  intro l h
  match l with
  | [] => simp [List.isPrefixOf] at h
  | [a] => simp [List.isPrefixOf] at h
  | a :: c :: t =>
    simp only [List.isPrefixOf, Bool.and_eq_true, beq_iff_eq] at h
    exact ⟨t, by rw [h.1, h.2.1]⟩

/-! ## Claim theorems -/

/-- C1: the claim — the orchestrator always returns one entry per camera,
failures included — fails on the code at the configured name template.
`generar_nombre_archivo` raises `KeyError('ext')` before the `try` block of
`capturar_video` (the template `camara_{id}_{timestamp}.{ext}` has an `ext`
field that is never supplied), `worker_captura` catches the exception and
appends nothing, so a one-camera run returns the empty result list: the
camera is a missing entry, not an `exito=false` entry. -/
theorem claim_C1_camara_faltante :
    ([cam1] : List Camara).length = 1 ∧
    capturar_todas_las_camaras decode0
      (fun _ => HttpRespuesta.resp 200 [Lectura.datos [255, 216, 1, 255, 217]])
      [cam1] "videos_capturados" FORMATO_NOMBRE 4 "20260101_000000" 10 = [] :=
  ⟨rfl, rfl⟩

/-- C2: the claim — `generar_nombre_archivo` applied to the configured
template `FORMATO_NOMBRE` returns a `camera_<id>_<timestamp>.<ext>` path
without error — fails on the code: the template carries the field `{ext}`
but `str.format` is called with only `id` and `timestamp`, so the call
raises `KeyError('ext')` (contradicting config.py's own comment that the
extension is adjusted automatically from `FORMATO_VIDEO`). -/
theorem claim_C2_nombre_archivo_keyerror :
    generar_nombre_archivo FORMATO_NOMBRE "cam1" "videos_capturados"
      "20260101_000000" = Except.error "ext" :=
  rfl

/-- C3: the claim — the codec and extension used at writer-open time are the
ones selected by the process-wide video-format setting — fails on the code:
`capturar_video` hardcodes the fourcc `'mp4v'` (capturador.py line 77) and
never reads config.py's `FORMATO_VIDEO` (capturador.py does not import
config), so under the default setting `"avi"` — whose configured codec is
`"I420"` — a session still opens its writer with `"mp4v"`. -/
theorem claim_C3_codec_fijo :
    (∃ r, capturar_video decode0
        (fun _ => HttpRespuesta.resp 200 [Lectura.datos [255, 216, 1, 255, 217]])
        cam1 "videos_capturados" plantillaOk "20260101_000000" 10 =
          Except.ok r ∧
      r.writer_abierto = true ∧ r.fourcc_usado = some "mp4v") ∧
    FORMATO_VIDEO = "avi" ∧
    obtener_codec FORMATO_VIDEO = some "I420" ∧
    ("mp4v" : String) ≠ "I420" := by
  exact ⟨⟨_, rfl, rfl, rfl⟩, rfl, by decide, by decide⟩

/-- C4 counterexample: the claim says every collected Capture Result record
contains a `framesCaptured` field.  A concrete orchestration run produces a
record whose keys are exactly `id`, `nombre`, `exito`, `archivo`, `mensaje`
— `framesCaptured` is not among them (the frame count appears only inside
the success message text). -/
theorem claim_C4_contraejemplo :
    (capturar_todas_las_camaras decode0 (fun _ => HttpRespuesta.resp 404 [])
        [cam1] "videos_capturados" plantillaOk 4 "20260101_000000" 10).map
      claves = [["id", "nombre", "exito", "archivo", "mensaje"]] ∧
    ("framesCaptured" : String) ∉
      ["id", "nombre", "exito", "archivo", "mensaje"] := by
  exact ⟨rfl, by decide⟩

/-- C4 amended: every record collected by the orchestrator has exactly the
five fields `id`, `nombre` (name), `exito` (success), `archivo`
(outputPath), `mensaje` (message) — no `framesCaptured` field — and is
exactly the record some session's worker created (created once at session
termination and owned unchanged by the orchestrator's collection). -/
theorem claim_C4_enmendada (decode : List Nat → Option (Nat × Nat))
    (red : String → HttpRespuesta) (camaras : List Camara)
    (directorio : String) (formato_nombre : List Tok) (max_hilos : Nat)
    (ts : String) (fuel : Nat) (r : Resultado)
    (hr : r ∈ capturar_todas_las_camaras decode red camaras directorio
      formato_nombre max_hilos ts fuel) :
    claves r = ["id", "nombre", "exito", "archivo", "mensaje"] ∧
    ∃ camara ∈ camaras,
      worker_un_item decode red directorio formato_nombre ts fuel camara =
        some r := by
  unfold capturar_todas_las_camaras at hr
  split at hr
  · exact absurd hr (List.not_mem_nil r)
  · rw [List.mem_filterMap] at hr
    obtain ⟨c, hc, hw⟩ := hr
    refine ⟨?_, c, hc, hw⟩
    unfold worker_un_item at hw
    split at hw
    · exact Option.noConfusion hw
    · injection hw with h
      rw [← h]
      rfl

/-- C4 amended, witness: the amended theorem applied to the concrete 404 run. -/
theorem claim_C4_enmendada_testigo :
    claves resultado404 = ["id", "nombre", "exito", "archivo", "mensaje"] ∧
    ∃ camara ∈ [cam1],
      worker_un_item decode0 (fun _ => HttpRespuesta.resp 404 [])
        "videos_capturados" plantillaOk "20260101_000000" 10 camara =
        some resultado404 :=
  claim_C4_enmendada decode0 (fun _ => HttpRespuesta.resp 404 []) [cam1]
    "videos_capturados" plantillaOk 4 "20260101_000000" 10 resultado404
    (by decide)

/-- C7 counterexample: the claim says that when an end marker precedes any
start marker the extractor drops the leading garbage up to (and not
including) the next start marker candidate.  On the buffer
`FF D9 47 FF D8` the end marker is at 0 and the start marker at 3, yet the
step leaves `47 FF D8`: only the prefix through the end marker is dropped,
and the garbage byte `0x47` is still ahead of the start marker (the claimed
behavior would leave `FF D8 = buffer.drop 3`). -/
theorem claim_C7_contraejemplo :
    findSub finJPEG [255, 217, 71, 255, 216] = some 0 ∧
    findSub inicioJPEG [255, 217, 71, 255, 216] = some 3 ∧
    (extraer_frame [255, 217, 71, 255, 216]).2 = [71, 255, 216] ∧
    [71, 255, 216] ≠ [255, 217, 71, 255, 216].drop 3 := by
  decide

/-- C5: a session whose GET raises a connection error or answers a non-2xx
status code returns a failure result — `exito` false, a nonempty descriptive
message, zero frames — and the video writer is never opened (no output file
created).  The hypothesis on `generar_nombre_archivo` states that the
filename generation of line 59 succeeded, which is what lets the session
reach the GET at all. -/
theorem claim_C5_fallo_conexion (decode : List Nat → Option (Nat × Nat))
    (red : String → HttpRespuesta) (camara : Camara) (directorio : String)
    (formato_nombre : List Tok) (ts : String) (fuel : Nat) (fn : String)
    (hfn : generar_nombre_archivo formato_nombre camara.id directorio ts =
      Except.ok fn)
    (hfail : (∃ e, red camara.url = HttpRespuesta.connError e) ∨
      ∃ status chunks, red camara.url = HttpRespuesta.resp status chunks ∧
        (status < 200 ∨ 300 ≤ status)) :
    ∃ r, capturar_video decode red camara directorio formato_nombre ts fuel =
        Except.ok r ∧
      r.exito = false ∧ r.writer_abierto = false ∧ r.fourcc_usado = none ∧
      r.frames_captured = 0 ∧ r.archivo = fn ∧ 0 < r.mensaje.length := by
  unfold capturar_video
  rw [hfn]
  dsimp only
  rcases hfail with ⟨e, he⟩ | ⟨status, chunks, hs, hrange⟩
  · rw [he]
    refine ⟨_, rfl, rfl, rfl, rfl, rfl, rfl, ?_⟩
    have h1 : 0 < "Error de conexión para ".length := by decide
    simp only [String.length_append]
    omega
  · have hne : status ≠ 200 := by omega
    rw [hs]
    dsimp only
    rw [if_pos hne]
    refine ⟨_, rfl, rfl, rfl, rfl, rfl, rfl, ?_⟩
    have h1 : 0 < "Error al conectar a la URL de ".length := by decide
    simp only [String.length_append]
    omega

/-- C5 witness: the theorem at a concrete camera whose stream answers 404. -/
theorem claim_C5_fallo_conexion_testigo :
    ∃ r, capturar_video decode0 (fun _ => HttpRespuesta.resp 404 []) cam1
        "videos_capturados" plantillaOk "20260101_000000" 10 = Except.ok r ∧
      r.exito = false ∧ r.writer_abierto = false ∧ r.fourcc_usado = none ∧
      r.frames_captured = 0 ∧
      r.archivo = "videos_capturados/camara_cam1_20260101_000000.avi" ∧
      0 < r.mensaje.length :=
  claim_C5_fallo_conexion decode0 (fun _ => HttpRespuesta.resp 404 []) cam1
    "videos_capturados" plantillaOk "20260101_000000" 10
    "videos_capturados/camara_cam1_20260101_000000.avi" rfl
    (Or.inr ⟨404, [], rfl, Or.inr (by decide)⟩)

/-- C6: a session in which no candidate payload is ever successfully decoded
(in particular one whose stream never yields a valid start/end marker pair)
never opens or finalizes the video file and returns failure with a frame
count of zero. -/
theorem claim_C6_sin_decodificacion (decode : List Nat → Option (Nat × Nat))
    (red : String → HttpRespuesta) (camara : Camara) (directorio : String)
    (formato_nombre : List Tok) (ts : String) (fuel : Nat) (r : CapturaTraza)
    (hok : capturar_video decode red camara directorio formato_nombre ts fuel =
      Except.ok r)
    (hdec : ∀ p ∈ r.payloads, decode p = none) :
    r.exito = false ∧ r.writer_abierto = false ∧ r.frames_captured = 0 := by
  unfold capturar_video at hok
  rcases hg : generar_nombre_archivo formato_nombre camara.id directorio ts
    with k | fn
  · rw [hg] at hok
    exact Except.noConfusion hok
  · rw [hg] at hok
    dsimp only at hok
    rcases hr : red camara.url with e | ⟨status, chunks⟩
    · rw [hr] at hok
      injection hok with h
      rw [← h]
      exact ⟨rfl, rfl, rfl⟩
    · rw [hr] at hok
      dsimp only at hok
      by_cases hst : status = 200
      · rw [if_neg (by omega)] at hok
        rcases hb : bucle_captura decode fuel chunks
            { bytes_data := [], frame_size := none, frames_captured := 0,
              payloads := [] } with ⟨final, exc⟩
        rw [hb] at hok
        have hJ : invJ final := by
          have h0 := bucle_captura_invJ decode fuel chunks _ invJ_inicial
          rw [hb] at h0
          exact h0
        have hQ : invQ decode final := by
          have h0 := bucle_captura_invQ decode fuel chunks _ (invQ_inicial decode)
          rw [hb] at h0
          exact h0
        cases exc with
        | some e =>
          injection hok with h
          dsimp only at h
          have hfsnone : final.frame_size = none := by
            rcases hfs : final.frame_size with _ | tam
            · rfl
            · exfalso
              have hne : final.frame_size ≠ none := by
                rw [hfs]
                exact fun hc => Option.noConfusion hc
              obtain ⟨p, hp, hpd⟩ := hQ hne
              exact hpd (hdec p (by rw [← h]; exact hp))
          rw [← h]
          refine ⟨rfl, ?_, ?_⟩
          · show final.frame_size.isSome = false
            rw [hfsnone]
            rfl
          · rcases hJ with ⟨_, h0⟩ | ⟨hne, _⟩
            · exact h0
            · exact absurd hfsnone hne
        | none =>
          injection hok with h
          dsimp only at h
          unfold cerrar_sesion at h
          rcases hfs : final.frame_size with _ | tam
          · rw [hfs] at h
            rw [← h]
            refine ⟨rfl, rfl, ?_⟩
            rcases hJ with ⟨_, h0⟩ | ⟨hne, _⟩
            · exact h0
            · exact absurd hfs hne
          · rw [hfs] at h
            have hne : final.frame_size ≠ none := by
              rw [hfs]
              exact fun hc => Option.noConfusion hc
            obtain ⟨p, hp, hpd⟩ := hQ hne
            have hpn : decode p = none := hdec p (by rw [← h]; exact hp)
            exact absurd hpn hpd
      · rw [if_pos hst] at hok
        injection hok with h
        rw [← h]
        exact ⟨rfl, rfl, rfl⟩

/-- C6 witness: the theorem at a concrete stream that sends an end marker
before any start marker and never a valid pair — the only extracted
candidate payload is empty and `cv2.imdecode` rejects it. -/
theorem claim_C6_sin_decodificacion_testigo :
    resultadoSinFrames.exito = false ∧
    resultadoSinFrames.writer_abierto = false ∧
    resultadoSinFrames.frames_captured = 0 :=
  claim_C6_sin_decodificacion decode0
    (fun _ => HttpRespuesta.resp 200 [Lectura.datos [255, 217, 255, 216]]) cam1
    "videos_capturados" plantillaOk "20260101_000000" 10 resultadoSinFrames
    rfl (by decide)

/-- C7 amended: when both markers are present the extractor consumes the
buffer prefix exactly through the end marker (bytes strictly between the end
marker and a later start marker are retained for later extractions, contrary
to the claim's drop-to-start-marker wording); when the end marker precedes
the start marker the extracted candidate is the empty payload (which cannot
decode, so garbage is never emitted); and every nonempty extracted payload
begins with the start marker and ends with the end marker. -/
theorem claim_C7_enmendada (bd : List Nat) (a b : Nat)
    (ha : findSub inicioJPEG bd = some a) (hb : findSub finJPEG bd = some b) :
    (extraer_frame bd).2 = bd.drop (b + 2) ∧
    (b < a → (extraer_frame bd).1 = some []) ∧
    (∀ p, (extraer_frame bd).1 = some p → p ≠ [] →
      (∃ v, p = inicioJPEG ++ v) ∧ ∃ u, p = u ++ finJPEG) := by
  obtain ⟨ta, hta⟩ := isPrefixOf_par (findSub_isPrefixOf inicioJPEG bd a ha)
  obtain ⟨tb, htb⟩ := isPrefixOf_par (findSub_isPrefixOf finJPEG bd b hb)
  have hane : a ≠ b := by
    intro hcontra
    rw [hcontra, htb] at hta
    injection hta with _ hta2
    injection hta2 with h2 _
    exact absurd h2 (by decide)
  have hane1 : a ≠ b + 1 := by
    intro hcontra
    have e2 : bd.drop (b + 1) = 217 :: tb := by
      rw [← List.tail_drop, htb]
      rfl
    rw [hcontra, e2] at hta
    injection hta with h1 _
    exact absurd h1 (by decide)
  refine ⟨?_, ?_, ?_⟩
  · unfold extraer_frame
    rw [ha, hb]
  · intro hba
    unfold extraer_frame
    rw [ha, hb]
    dsimp only
    have hz : b + 2 - a = 0 := by omega
    rw [hz]
    rfl
  · intro p hp hpne
    unfold extraer_frame at hp
    rw [ha, hb] at hp
    dsimp only at hp
    injection hp with hp'
    have hal : a < b := by
      by_contra hcon
      push_neg at hcon
      have hz : b + 2 - a = 0 := by omega
      rw [hz] at hp'
      exact hpne hp'.symm
    have hk : b + 2 - a = (b - a) + 2 := by omega
    have hdrop : (bd.drop a).drop (b - a) = 255 :: 217 :: tb := by
      rw [List.drop_drop]
      have hsum : a + (b - a) = b := by omega
      rw [hsum, htb]
    constructor
    · have hpre : p = 255 :: 216 :: ta.take (b - a) := by
        rw [← hp', hk, hta]
        rfl
      exact ⟨ta.take (b - a), by rw [hpre]; rfl⟩
    · have hsplit : p = (bd.drop a).take (b - a) ++
          ((bd.drop a).drop (b - a)).take 2 := by
        rw [← hp', hk]
        exact List.take_add _ _ _
      rw [hdrop] at hsplit
      exact ⟨(bd.drop a).take (b - a), by rw [hsplit]; rfl⟩

/-- C7 amended, witness: the amended theorem at the buffer
`FF D8 05 FF D9` holding one complete frame. -/
theorem claim_C7_enmendada_testigo :
    (extraer_frame [255, 216, 5, 255, 217]).2 =
      [255, 216, 5, 255, 217].drop (3 + 2) ∧
    (3 < 0 → (extraer_frame [255, 216, 5, 255, 217]).1 = some []) ∧
    (∀ p, (extraer_frame [255, 216, 5, 255, 217]).1 = some p → p ≠ [] →
      (∃ v, p = inicioJPEG ++ v) ∧ ∃ u, p = u ++ finJPEG) :=
  claim_C7_enmendada [255, 216, 5, 255, 217] 0 3 rfl rfl

/-- C8 counterexample: the claim says success is returned if and only if the
writer was opened.  On a stream that delivers one complete frame — opening
the writer and writing the frame — and whose next read raises a mid-stream
read error (a urllib3 read timeout is not a `RequestException`), the
catch-all handler of capturador.py lines 139-142 returns failure with the
writer open: `exito = false` while `writer_abierto = true`, refuting the
biconditional. -/
theorem claim_C8_contraejemplo :
    capturar_video decode0
      (fun _ => HttpRespuesta.resp 200
        [Lectura.datos [255, 216, 1, 255, 217],
         Lectura.fallo "Read timed out."])
      cam1 "videos_capturados" plantillaOk "20260101_000000" 10 =
      Except.ok resultadoFalloLectura ∧
    resultadoFalloLectura.writer_abierto = true ∧
    resultadoFalloLectura.frames_captured = 1 ∧
    resultadoFalloLectura.exito = false ∧
    ¬(resultadoFalloLectura.exito = true ↔
      resultadoFalloLectura.writer_abierto = true) := by
  exact ⟨rfl, rfl, rfl, rfl, by decide⟩

/-- C8 amended: for every session that returns normally, success implies the
writer was opened and at least one frame was decoded and written; an open
writer owes its opening to some candidate payload the decoder accepted
(the writer is opened only upon a first successful decode); and for sessions
in which no mid-stream exception was caught, success holds if and only if
the writer was opened. -/
theorem claim_C8_enmendada (decode : List Nat → Option (Nat × Nat))
    (red : String → HttpRespuesta) (camara : Camara) (directorio : String)
    (formato_nombre : List Tok) (ts : String) (fuel : Nat) (r : CapturaTraza)
    (hok : capturar_video decode red camara directorio formato_nombre ts fuel =
      Except.ok r) :
    (r.exito = true → r.writer_abierto = true ∧ 1 ≤ r.frames_captured) ∧
    (r.writer_abierto = true → ∃ p ∈ r.payloads, decode p ≠ none) ∧
    (r.excepcion = none → (r.exito = true ↔ r.writer_abierto = true)) := by
  unfold capturar_video at hok
  rcases hg : generar_nombre_archivo formato_nombre camara.id directorio ts
    with k | fn
  · rw [hg] at hok
    exact Except.noConfusion hok
  · rw [hg] at hok
    dsimp only at hok
    rcases hr : red camara.url with e | ⟨status, chunks⟩
    · rw [hr] at hok
      injection hok with h
      rw [← h]
      exact ⟨fun hc => absurd hc Bool.false_ne_true,
        fun hc => absurd hc Bool.false_ne_true,
        fun hc => Option.noConfusion hc⟩
    · rw [hr] at hok
      dsimp only at hok
      by_cases hst : status = 200
      · rw [if_neg (by omega)] at hok
        rcases hb : bucle_captura decode fuel chunks
            { bytes_data := [], frame_size := none, frames_captured := 0,
              payloads := [] } with ⟨final, exc⟩
        rw [hb] at hok
        have hJ : invJ final := by
          have h0 := bucle_captura_invJ decode fuel chunks _ invJ_inicial
          rw [hb] at h0
          exact h0
        have hQ : invQ decode final := by
          have h0 := bucle_captura_invQ decode fuel chunks _ (invQ_inicial decode)
          rw [hb] at h0
          exact h0
        cases exc with
        | some e =>
          injection hok with h
          dsimp only at h
          rw [← h]
          refine ⟨fun hc => absurd hc Bool.false_ne_true, fun hw => ?_,
            fun hc => Option.noConfusion hc⟩
          have hw2 : final.frame_size.isSome = true := hw
          have hne : final.frame_size ≠ none := by
            intro hfs
            rw [hfs] at hw2
            exact Bool.noConfusion hw2
          obtain ⟨p, hp, hpd⟩ := hQ hne
          exact ⟨p, hp, hpd⟩
        | none =>
          injection hok with h
          dsimp only at h
          unfold cerrar_sesion at h
          rcases hfs : final.frame_size with _ | tam
          · rw [hfs] at h
            rw [← h]
            exact ⟨fun hc => absurd hc Bool.false_ne_true,
              fun hc => absurd hc Bool.false_ne_true, fun _ => Iff.rfl⟩
          · rw [hfs] at h
            have hne : final.frame_size ≠ none := by
              rw [hfs]
              exact fun hc => Option.noConfusion hc
            rw [← h]
            refine ⟨fun _ => ⟨rfl, ?_⟩, fun _ => ?_, fun _ => Iff.rfl⟩
            · rcases hJ with ⟨hn, _⟩ | ⟨_, h1⟩
              · exact absurd hn hne
              · exact h1
            · obtain ⟨p, hp, hpd⟩ := hQ hne
              exact ⟨p, hp, hpd⟩
      · rw [if_pos hst] at hok
        injection hok with h
        rw [← h]
        exact ⟨fun hc => absurd hc Bool.false_ne_true,
          fun hc => absurd hc Bool.false_ne_true, fun _ => Iff.rfl⟩

/-- C8 amended, witness: the theorem at a concrete exception-free one-frame
stream. -/
theorem claim_C8_enmendada_testigo :
    (resultadoUnFrame.exito = true → resultadoUnFrame.writer_abierto = true ∧
      1 ≤ resultadoUnFrame.frames_captured) ∧
    (resultadoUnFrame.writer_abierto = true →
      ∃ p ∈ resultadoUnFrame.payloads, decode0 p ≠ none) ∧
    (resultadoUnFrame.excepcion = none →
      (resultadoUnFrame.exito = true ↔ resultadoUnFrame.writer_abierto = true)) :=
  claim_C8_enmendada decode0
    (fun _ => HttpRespuesta.resp 200 [Lectura.datos [255, 216, 1, 255, 217]])
    cam1 "videos_capturados" plantillaOk "20260101_000000" 10 resultadoUnFrame
    rfl

/-- C9: a camera whose `habilitada` key is absent is treated as enabled;
`obtener_camaras_habilitadas` returns exactly the sublist of descriptors
whose flag is absent or `True`, in configuration order. -/
theorem claim_C9_habilitadas (camaras : List Camara) :
    obtener_camaras_habilitadas camaras =
      camaras.filter
        (fun c => c.habilitada.isNone || (c.habilitada == some true)) := by
  unfold obtener_camaras_habilitadas
  refine List.filter_congr ?_
  intro c _
  cases h : c.habilitada with
  | none => rfl
  | some b => cases b <;> simp

/-- C10: `cambiar_formato_video` recognizes exactly the case-insensitive
forms of `mp4` and `avi`; a recognized input returns `True` and sets the
global `FORMATO_VIDEO` to the lowercased format, any other input returns
`False` and leaves the setting unchanged. -/
theorem claim_C10_cambiar_formato (formato formato_video : String) :
    cambiar_formato_video formato formato_video =
      if formato.toLower = "mp4" ∨ formato.toLower = "avi" then
        (true, formato.toLower)
      else (false, formato_video) := by
  unfold cambiar_formato_video
  simp only [CODECS, List.map, List.contains_cons, List.contains_nil,
    Bool.or_false, beq_iff_eq]
  by_cases h1 : formato.toLower = "mp4"
  · simp [h1]
  · by_cases h2 : formato.toLower = "avi"
    · simp [h1, h2]
    · simp [h1, h2]

end VideoTaker
